import Mathlib

/-!
Shallow embedding of bin/node/cli/src/service.rs (Robonomics node service
assembly). The file wires two macro-generated service constructions,
new_full! / new_light!, instantiated for the Robonomics and IPCI runtimes.
External Substrate collaborators (client, network, consensus crates) are
modelled by the data the assembly code passes to them and by the success or
failure outcomes the assembly code branches on; constructors whose failure
the assembly code merely propagates and never inspects are modelled as
succeeding, except where an environment flag records an outcome the code
branches on (the ROS bridge, the light-client fetcher).
-/

/-- Identifier of the runtime type passed to the service macros
(robonomics_runtime::RuntimeApi or ipci_runtime::RuntimeApi). -/
inductive Runtime
  | robonomics
  | ipci
  deriving DecidableEq, Inhabited

/-- Identifier of the native executor instance passed to the service macros
(executor::Robonomics or executor::Ipci, declared in the executor module). -/
inductive Executor
  | Robonomics
  | Ipci
  deriving DecidableEq, Inhabited

/-- Node role, mirroring sc_service::config::Role: Full, Light,
Sentry with a validator list, Authority with a sentry-node list
(peer addresses modelled as strings). -/
inductive Role
  | Full
  | Light
  | Sentry (validators : List String)
  | Authority (sentry_nodes : List String)
  deriving DecidableEq, Inhabited

/-- Role::is_authority from sc_service: true only for the Authority variant. -/
def Role.is_authority : Role → Bool
  | .Authority _ => true
  | _ => false

/-- Role::is_network_authority from sc_service: true for Authority and
Sentry, which are both announced as authorities on the network. -/
def Role.is_network_authority : Role → Bool
  | .Authority _ => true
  | .Sentry _ => true
  | _ => false

/-- The fields of the external sc_service Configuration that service.rs
reads, plus the justification period option. Modelled from the spec: the
recognized role-configuration option justification_period (blocks between
forced justification requests); the external Configuration type carries no
such field and the service code below never reads it. -/
structure Configuration where
  role : Role
  force_authoring : Bool
  node_name : String
  disable_grandpa : Bool
  justification_period : Nat
  deriving DecidableEq, Inhabited

/-- Outcomes of the external collaborators that service.rs branches on:
whether the crate was built with the ros feature, whether
rosrust::try_init_with_options succeeded, the error of
substrate_ros_api::start when it failed, and whether a light-client fetcher
is active. -/
structure Env where
  ros_feature : Bool
  ros_init_ok : Bool
  ros_start_err : Option String
  fetcher_available : Bool
  deriving DecidableEq, Inhabited

/-- Service construction error, mirroring sc_service::Error as used in
service.rs: the SelectChainRequired variant and errors built from strings. -/
inductive ServiceError
  | SelectChainRequired
  | Msg (s : String)
  deriving DecidableEq, Inhabited

/-- The fork-choice component: with_select_chain always installs
sc_consensus::LongestChain. -/
inductive SelectChain
  | longestChain
  deriving DecidableEq, Inhabited

/-- Opaque handle to the keystore returned by service.keystore(). -/
structure KeyStorePtr where
  deriving DecidableEq, Inhabited

/-- What the babe import queue is wired with: whether a justification
importer was passed (Some(grandpa_block_import) in the full service), whether
a finality-proof import was passed (Some in the light service), and whether
the grandpa block import holds a light-client fetch checker. -/
structure ImportQueueSetup where
  justification_import : Bool
  finality_proof_import : Bool
  fetch_checker : Bool
  deriving DecidableEq, Inhabited

/-- A long-running task handed to the task manager; essential records
whether it was spawned with spawn_essential_task (whose failure takes down
the whole service) rather than spawn_task. -/
structure SpawnedTask where
  name : String
  essential : Bool
  deriving DecidableEq, Inhabited

/-- The sc_finality_grandpa::Config value built by new_full!. -/
structure GrandpaConfig where
  gossip_duration_millis : Nat
  justification_period : Nat
  name : Option String
  observer_enabled : Bool
  keystore : Option KeyStorePtr
  is_authority : Bool
  deriving DecidableEq, Inhabited

/-- Which finality component the full service set up: voter means
run_grandpa_voter was spawned; disabled means
sc_finality_grandpa::setup_disabled_grandpa was called instead, which only
registers the finality-tracker inherent data provider and the GRANDPA
notifications protocol — it spawns no task and runs no observer
(run_grandpa_observer is a distinct entry point, never called in
service.rs). -/
inductive GrandpaMode
  | voter
  | disabled
  deriving DecidableEq, Inhabited

/-- Role passed to sc_authority_discovery::AuthorityDiscovery::new:
Authority holds the keystore, Sentry holds nothing. -/
inductive AuthorityDiscoveryRole
  | Authority (keystore : KeyStorePtr)
  | Sentry
  deriving DecidableEq, Inhabited

/-- Arguments the full service passes to AuthorityDiscovery::new: the
sentry-node list and the discovery role. -/
structure AuthorityDiscoveryArgs where
  sentries : List String
  role : AuthorityDiscoveryRole
  deriving DecidableEq, Inhabited

/-- The parts of the built service value that the post-build code of
new_full! reads: the select chain installed by the builder and the
keystore handle. -/
structure Service where
  select_chain : Option SelectChain
  keystore : KeyStorePtr
  deriving DecidableEq, Inhabited

/-- Result of the full-service assembly: the runtime/executor pair the
macro was instantiated at, the import-queue wiring, every spawned task in
spawn order, the grandpa config, the finality mode, the authority-discovery
arguments when that task was spawned, and the warnings logged. -/
structure FullService where
  runtime : Runtime
  executor : Executor
  importQueue : ImportQueueSetup
  tasks : List SpawnedTask
  grandpaConfig : GrandpaConfig
  grandpaMode : GrandpaMode
  authority_discovery : Option AuthorityDiscoveryArgs
  warnings : List String
  deriving DecidableEq, Inhabited

/-- Result of the light-service assembly (new_light! spawns no tasks; the
tasks field records that). -/
structure LightService where
  runtime : Runtime
  executor : Executor
  importQueue : ImportQueueSetup
  finality_proof_request_builder : Bool
  tasks : List SpawnedTask
  deriving DecidableEq, Inhabited

/-- Whether the assembly spawned a task with the given name. -/
def spawns (tasks : List SpawnedTask) (n : String) : Bool :=
  tasks.any fun t => t.name = n

/-- The with_import_queue closure of new_full_start!: takes the builder's
optional select chain; if absent it fails with SelectChainRequired, else it
builds the grandpa block import, clones it as justification import, stacks
the babe block import on top and builds the babe import queue with
Some(justification_import) and no finality-proof import. The external
consensus constructors are modelled as succeeding. -/
def full_import_queue (select_chain : Option SelectChain) :
    Except ServiceError ImportQueueSetup :=
  match select_chain with
  | none => .error ServiceError.SelectChainRequired
  | some _ =>
      .ok { justification_import := true
            finality_proof_import := false
            fetch_checker := false }

/-- The builder produced by new_full_start!: with_select_chain installs
LongestChain, with_transaction_pool installs the full pool, and
with_import_queue runs the closure above on the builder's select chain. -/
structure FullBuilder where
  select_chain : Option SelectChain
  import_queue : ImportQueueSetup
  deriving DecidableEq, Inhabited

/-- The new_full_start! macro body: assembles the builder. -/
def new_full_start (_cfg : Configuration) : Except ServiceError FullBuilder :=
  let select_chain := some SelectChain.longestChain
  match full_import_queue select_chain with
  | .error e => .error e
  | .ok iq => .ok { select_chain := select_chain, import_queue := iq }

/-- The babe proposer parameters new_full! builds in the Authority branch
(the fields the claims concern). -/
structure BabeParams where
  keystore : KeyStorePtr
  select_chain : SelectChain
  force_authoring : Bool
  deriving DecidableEq, Inhabited

/-- The Authority branch of new_full! up to start_babe: service.select_chain()
is required, else the construction aborts with SelectChainRequired before
the babe-proposer task is spawned. -/
def start_authoring (svc : Service) (force_authoring : Bool) :
    Except ServiceError BabeParams :=
  match svc.select_chain with
  | none => .error ServiceError.SelectChainRequired
  | some sc =>
      .ok { keystore := svc.keystore
            select_chain := sc
            force_authoring := force_authoring }

/-- The role dispatch around the Authority branch: only the Authority
variant starts block authoring; the babe-proposer task is spawned as
essential. -/
def authoring_step (role : Role) (svc : Service) (force_authoring : Bool) :
    Except ServiceError (List SpawnedTask) :=
  match role with
  | .Authority _ =>
      match start_authoring svc force_authoring with
      | .error e => .error e
      | .ok _ => .ok [{ name := "babe-proposer", essential := true }]
  | _ => .ok []

/-- The authority-discovery dispatch of new_full!: for Authority the
configured sentry nodes and the Authority discovery role holding the
keystore; for Sentry an empty sentry list and the Sentry discovery role;
for every other role the module is not constructed. -/
def authority_discovery_args (role : Role) (svc : Service) :
    Option AuthorityDiscoveryArgs :=
  match role with
  | .Authority sentry_nodes =>
      some { sentries := sentry_nodes
             role := AuthorityDiscoveryRole.Authority svc.keystore }
  | .Sentry _ =>
      some { sentries := [], role := AuthorityDiscoveryRole.Sentry }
  | _ => none

/-- The ros-feature block at the end of new_full!: only compiled in with
the ros feature; if rosrust initialization succeeds the ROS services are
started (a failure there is propagated as an error string prefixed with
"Substrate ROS: ") and the substrate-ros task is spawned as an ordinary
task; if initialization fails a warning is logged and assembly goes on. -/
def ros_integration (env : Env) :
    Except ServiceError (List SpawnedTask × List String) :=
  if env.ros_feature then
    if env.ros_init_ok then
      match env.ros_start_err with
      | none => .ok ([{ name := "substrate-ros", essential := false }], [])
      | some e => .error (ServiceError.Msg ("Substrate ROS: " ++ e))
    else
      .ok ([], ["ROS integration disabled because of initialization failure"])
  else .ok ([], [])

/-- The body of new_full! after builder.build(): role-dispatched authoring,
authority discovery, the grandpa config (keystore only when
role.is_authority(), gossip duration fixed at 333 ms, justification period
fixed at 512 with a FIXME to make it available through chainspec), the
grandpa voter or the disabled-grandpa setup, and the optional ROS bridge.
An error result means the construction aborted at the failing step, before
the tasks of that step and all later steps were spawned. -/
def new_full_from_service (rt : Runtime) (ex : Executor) (cfg : Configuration)
    (env : Env) (iq : ImportQueueSetup) (svc : Service) :
    Except ServiceError FullService :=
  match authoring_step cfg.role svc cfg.force_authoring with
  | .error e => .error e
  | .ok babeTasks =>
      let ad := authority_discovery_args cfg.role svc
      let adTasks : List SpawnedTask :=
        match ad with
        | some _ => [{ name := "authority-discovery", essential := false }]
        | none => []
      let gconfig : GrandpaConfig :=
        { gossip_duration_millis := 333
          justification_period := 512
          name := some cfg.node_name
          observer_enabled := false
          keystore := if cfg.role.is_authority then some svc.keystore else none
          is_authority := cfg.role.is_network_authority }
      let enable_grandpa := !cfg.disable_grandpa
      let gmode := if enable_grandpa then GrandpaMode.voter else GrandpaMode.disabled
      let gTasks : List SpawnedTask :=
        if enable_grandpa then [{ name := "grandpa-voter", essential := true }] else []
      match ros_integration env with
      | .error e => .error e
      | .ok (rosTasks, warnings) =>
          .ok { runtime := rt
                executor := ex
                importQueue := iq
                tasks := babeTasks ++ adTasks ++ gTasks ++ rosTasks
                grandpaConfig := gconfig
                grandpaMode := gmode
                authority_discovery := ad
                warnings := warnings }

/-- The service value builder.build() hands to the post-build code: it
keeps the select chain installed by new_full_start! (with_import_queue
only receives a clone of the builder's select chain option). -/
def built_service (b : FullBuilder) : Service :=
  { select_chain := b.select_chain, keystore := {} }

/-- The new_full! macro body: new_full_start!, the finality-proof provider,
build, then the post-build assembly. -/
def new_full (rt : Runtime) (ex : Executor) (cfg : Configuration) (env : Env) :
    Except ServiceError FullService :=
  match new_full_start cfg with
  | .error e => .error e
  | .ok b => new_full_from_service rt ex cfg env b.import_queue (built_service b)

/-- The with_transaction_pool closure of new_light!: requires an active
fetcher, else fails with the quoted error string. -/
def light_transaction_pool (fetcher : Bool) : Except ServiceError Unit :=
  if fetcher then .ok ()
  else .error (ServiceError.Msg
    "Trying to start light transaction pool without active fetcher")

/-- The with_import_queue_and_fprb closure of new_light!: requires the
fetcher's checker, builds the grandpa light block import around the fetch
checker, uses it as finality-proof import, derives the finality-proof
request builder from it, and builds the babe import queue with no
justification import and Some(finality_proof_import). -/
def light_import_queue_and_fprb (fetcher : Bool) :
    Except ServiceError (ImportQueueSetup × Bool) :=
  if fetcher then
    .ok ({ justification_import := false
           finality_proof_import := true
           fetch_checker := true }, true)
  else
    .error (ServiceError.Msg
      "Trying to start light import queue without active fetch checker")

/-- The new_light! macro body: light builder pipeline, finality-proof
provider, build. No task is spawned by the macro: it neither starts babe
nor runs a grandpa voter. -/
def new_light (rt : Runtime) (ex : Executor) (_cfg : Configuration) (env : Env) :
    Except ServiceError LightService :=
  match light_transaction_pool env.fetcher_available with
  | .error e => .error e
  | .ok _ =>
      match light_import_queue_and_fprb env.fetcher_available with
      | .error e => .error e
      | .ok (iq, fprb) =>
          .ok { runtime := rt
                executor := ex
                importQueue := iq
                finality_proof_request_builder := fprb
                tasks := [] }

/-- ipci::new_full: the new_full! macro at the IPCI runtime/executor pair. -/
def ipci_new_full (cfg : Configuration) (env : Env) :
    Except ServiceError FullService :=
  new_full Runtime.ipci Executor.Ipci cfg env

/-- ipci::new_light: the new_light! macro at the IPCI runtime/executor pair. -/
def ipci_new_light (cfg : Configuration) (env : Env) :
    Except ServiceError LightService :=
  new_light Runtime.ipci Executor.Ipci cfg env

/-- robonomics::new_full: the new_full! macro at the Robonomics pair. -/
def robonomics_new_full (cfg : Configuration) (env : Env) :
    Except ServiceError FullService :=
  new_full Runtime.robonomics Executor.Robonomics cfg env

/-- robonomics::new_light: the new_light! macro at the Robonomics pair. -/
def robonomics_new_light (cfg : Configuration) (env : Env) :
    Except ServiceError LightService :=
  new_light Runtime.robonomics Executor.Robonomics cfg env

/-- Everything in a full-service result except the runtime/executor pair. -/
def FullService.assembly (s : FullService) :
    ImportQueueSetup × List SpawnedTask × GrandpaConfig × GrandpaMode ×
      Option AuthorityDiscoveryArgs × List String :=
  (s.importQueue, s.tasks, s.grandpaConfig, s.grandpaMode,
    s.authority_discovery, s.warnings)

/-- Everything in a light-service result except the runtime/executor pair. -/
def LightService.assembly (s : LightService) :
    ImportQueueSetup × Bool × List SpawnedTask :=
  (s.importQueue, s.finality_proof_request_builder, s.tasks)

/-- Environment with the ros feature compiled out and an active fetcher. -/
def env0 : Env :=
  { ros_feature := false, ros_init_ok := false, ros_start_err := none
    fetcher_available := true }

/-- Environment with the ros feature on and rosrust initialization failing. -/
def envRosInitFail : Env :=
  { ros_feature := true, ros_init_ok := false, ros_start_err := none
    fetcher_available := true }

/-- Environment with the ros feature on and both ros steps succeeding. -/
def envRosOk : Env :=
  { ros_feature := true, ros_init_ok := true, ros_start_err := none
    fetcher_available := true }

/-- Authority configuration with one sentry node. -/
def cfgAuthority : Configuration :=
  { role := Role.Authority ["sentry-a"], force_authoring := false
    node_name := "alice", disable_grandpa := false
    justification_period := 512 }

/-- Sentry configuration. -/
def cfgSentry : Configuration :=
  { role := Role.Sentry ["val-a"], force_authoring := false
    node_name := "carol", disable_grandpa := false
    justification_period := 512 }

/-- Full (non-authority) configuration with grandpa disabled. -/
def cfgFullNoGrandpa : Configuration :=
  { role := Role.Full, force_authoring := false
    node_name := "bob", disable_grandpa := true
    justification_period := 512 }

/-- Authority configuration whose caller-side justification period is 7. -/
def cfgPeriod7 : Configuration :=
  { role := Role.Authority [], force_authoring := false
    node_name := "dave", disable_grandpa := false
    justification_period := 7 }

/-- A service value with no select chain installed. -/
def svcNoSelectChain : Service := { select_chain := none, keystore := {} }

/-- C1: In the full service construction, the babe-proposer block-production
task is started if and only if the configured role is Authority; for Sentry,
Full and Light no block-authoring task is created. -/
theorem babe_spawned_iff_authority (rt : Runtime) (ex : Executor)
    (cfg : Configuration) (env : Env) (s : FullService)
    (h : new_full rt ex cfg env = Except.ok s) :
    spawns s.tasks "babe-proposer" = true ↔ cfg.role.is_authority = true := by
  obtain ⟨role, fa, nn, dg, jp⟩ := cfg
  obtain ⟨rf, ri, rs, fav⟩ := env
  cases role <;> cases rf <;> cases ri <;> cases rs <;> cases dg <;>
    simp [new_full, new_full_start, full_import_queue, built_service,
      new_full_from_service, authoring_step, start_authoring,
      authority_discovery_args, ros_integration] at h <;>
    (try subst h) <;> simp [spawns, Role.is_authority]

theorem babe_spawned_iff_authority_witness :
    spawns ((robonomics_new_full cfgAuthority env0).toOption.getD default).tasks
        "babe-proposer" = true ↔
      cfgAuthority.role.is_authority = true :=
  babe_spawned_iff_authority Runtime.robonomics Executor.Robonomics
    cfgAuthority env0
    ((robonomics_new_full cfgAuthority env0).toOption.getD default) rfl

/-- Concrete full-service result for the disabled-grandpa configuration. -/
def svcFullNoGrandpa : FullService :=
  (robonomics_new_full cfgFullNoGrandpa env0).toOption.getD default

/-- C2 counterexample: with disable_grandpa set (role Full, ros feature
off), the construction succeeds but spawns no task at all — in particular
no observer substitute tracking justifications runs; the finality component
is the disabled-grandpa setup and the grandpa config has observer_enabled
false. -/
theorem grandpa_disabled_no_observer_counterexample :
    robonomics_new_full cfgFullNoGrandpa env0 = Except.ok svcFullNoGrandpa ∧
    cfgFullNoGrandpa.disable_grandpa = true ∧
    svcFullNoGrandpa.tasks = [] ∧
    svcFullNoGrandpa.grandpaMode = GrandpaMode.disabled ∧
    svcFullNoGrandpa.grandpaConfig.observer_enabled = false :=
  ⟨rfl, rfl, rfl, rfl, rfl⟩

/-- C2 amended: when disable_grandpa is set, the full service runs no
finality component at all — no grandpa-voter task and no observer is
spawned (every spawned task is one of babe-proposer, authority-discovery,
substrate-ros); the code instead calls setup_disabled_grandpa and builds
the grandpa config with observer_enabled = false. -/
theorem grandpa_disabled_spawns_no_finality_task (rt : Runtime) (ex : Executor)
    (cfg : Configuration) (env : Env) (s : FullService)
    (hdg : cfg.disable_grandpa = true)
    (h : new_full rt ex cfg env = Except.ok s) :
    s.grandpaMode = GrandpaMode.disabled ∧
    spawns s.tasks "grandpa-voter" = false ∧
    s.grandpaConfig.observer_enabled = false ∧
    ∀ t ∈ s.tasks, t.name = "babe-proposer" ∨ t.name = "authority-discovery" ∨
      t.name = "substrate-ros" := by
  obtain ⟨role, fa, nn, dg, jp⟩ := cfg
  obtain ⟨rf, ri, rs, fav⟩ := env
  simp only [] at hdg
  subst hdg
  cases role <;> cases rf <;> cases ri <;> cases rs <;>
    simp [new_full, new_full_start, full_import_queue, built_service,
      new_full_from_service, authoring_step, start_authoring,
      authority_discovery_args, ros_integration] at h <;>
    (try subst h) <;> simp [spawns]

theorem grandpa_disabled_spawns_no_finality_task_witness :
    svcFullNoGrandpa.grandpaMode = GrandpaMode.disabled ∧
    spawns svcFullNoGrandpa.tasks "grandpa-voter" = false ∧
    svcFullNoGrandpa.grandpaConfig.observer_enabled = false ∧
    ∀ t ∈ svcFullNoGrandpa.tasks, t.name = "babe-proposer" ∨
      t.name = "authority-discovery" ∨ t.name = "substrate-ros" :=
  grandpa_disabled_spawns_no_finality_task Runtime.robonomics
    Executor.Robonomics cfgFullNoGrandpa env0 svcFullNoGrandpa rfl rfl

/-- C3: the light service construction spawns no task at all — neither a
block-production engine nor a grandpa voter — and its import queue is wired
with no justification import, a finality-proof import built around the
fetcher's fetch checker, and a finality-proof request builder derived from
that import. -/
theorem light_service_wiring (rt : Runtime) (ex : Executor)
    (cfg : Configuration) (env : Env) (s : LightService)
    (h : new_light rt ex cfg env = Except.ok s) :
    s.tasks = [] ∧
    s.importQueue.justification_import = false ∧
    s.importQueue.finality_proof_import = true ∧
    s.importQueue.fetch_checker = true ∧
    s.finality_proof_request_builder = true := by
  obtain ⟨rf, ri, rs, fav⟩ := env
  cases fav <;>
    simp [new_light, light_transaction_pool, light_import_queue_and_fprb] at h <;>
    (try subst h) <;> simp

theorem light_service_wiring_witness :
    ((robonomics_new_light cfgAuthority env0).toOption.getD default).tasks = [] ∧
    ((robonomics_new_light cfgAuthority env0).toOption.getD
        default).importQueue.justification_import = false ∧
    ((robonomics_new_light cfgAuthority env0).toOption.getD
        default).importQueue.finality_proof_import = true ∧
    ((robonomics_new_light cfgAuthority env0).toOption.getD
        default).importQueue.fetch_checker = true ∧
    ((robonomics_new_light cfgAuthority env0).toOption.getD
        default).finality_proof_request_builder = true :=
  light_service_wiring Runtime.robonomics Executor.Robonomics cfgAuthority
    env0 ((robonomics_new_light cfgAuthority env0).toOption.getD default) rfl

/-- C4: the authority-discovery task is spawned if and only if the role is
Authority or Sentry; for Sentry it is constructed with the Sentry discovery
role and an empty sentry list, for Authority with the Authority discovery
role holding the keystore and the configured sentry-node list. -/
theorem authority_discovery_dispatch (rt : Runtime) (ex : Executor)
    (cfg : Configuration) (env : Env) (s : FullService)
    (h : new_full rt ex cfg env = Except.ok s) :
    (spawns s.tasks "authority-discovery" = true ↔
      ((∃ ns, cfg.role = Role.Authority ns) ∨ (∃ v, cfg.role = Role.Sentry v))) ∧
    (∀ v, cfg.role = Role.Sentry v →
      s.authority_discovery =
        some { sentries := [], role := AuthorityDiscoveryRole.Sentry }) ∧
    (∀ ns, cfg.role = Role.Authority ns →
      s.authority_discovery =
        some { sentries := ns, role := AuthorityDiscoveryRole.Authority {} }) := by
  obtain ⟨role, fa, nn, dg, jp⟩ := cfg
  obtain ⟨rf, ri, rs, fav⟩ := env
  cases role <;> cases rf <;> cases ri <;> cases rs <;> cases dg <;>
    simp [new_full, new_full_start, full_import_queue, built_service,
      new_full_from_service, authoring_step, start_authoring,
      authority_discovery_args, ros_integration] at h <;>
    (try subst h) <;> simp [spawns]

theorem authority_discovery_dispatch_witness :
    (spawns ((robonomics_new_full cfgSentry env0).toOption.getD default).tasks
        "authority-discovery" = true ↔
      ((∃ ns, cfgSentry.role = Role.Authority ns) ∨
        (∃ v, cfgSentry.role = Role.Sentry v))) ∧
    (∀ v, cfgSentry.role = Role.Sentry v →
      ((robonomics_new_full cfgSentry env0).toOption.getD
          default).authority_discovery =
        some { sentries := [], role := AuthorityDiscoveryRole.Sentry }) ∧
    (∀ ns, cfgSentry.role = Role.Authority ns →
      ((robonomics_new_full cfgSentry env0).toOption.getD
          default).authority_discovery =
        some { sentries := ns, role := AuthorityDiscoveryRole.Authority {} }) :=
  authority_discovery_dispatch Runtime.robonomics Executor.Robonomics
    cfgSentry env0
    ((robonomics_new_full cfgSentry env0).toOption.getD default) rfl

/-- C5: with no select chain available, both paths that require one fail
with SelectChainRequired — the with_import_queue closure of the builder,
and the post-build assembly for an Authority role — and an error result of
the assembly means it aborted at that step, before any task was spawned. -/
theorem select_chain_required_aborts (rt : Runtime) (ex : Executor)
    (cfg : Configuration) (env : Env) (iq : ImportQueueSetup) (svc : Service)
    (ns : List String) (hrole : cfg.role = Role.Authority ns)
    (hsc : svc.select_chain = none) :
    full_import_queue none = Except.error ServiceError.SelectChainRequired ∧
    new_full_from_service rt ex cfg env iq svc =
      Except.error ServiceError.SelectChainRequired := by
  refine ⟨rfl, ?_⟩
  simp [new_full_from_service, authoring_step, start_authoring, hrole, hsc]

theorem select_chain_required_aborts_witness :
    full_import_queue none = Except.error ServiceError.SelectChainRequired ∧
    new_full_from_service Runtime.robonomics Executor.Robonomics cfgAuthority
        env0 default svcNoSelectChain =
      Except.error ServiceError.SelectChainRequired :=
  select_chain_required_aborts Runtime.robonomics Executor.Robonomics
    cfgAuthority env0 default svcNoSelectChain ["sentry-a"] rfl rfl

/-- Concrete full-service result for the configuration whose caller-side
justification period option is 7. -/
def svcPeriod7 : FullService :=
  (robonomics_new_full cfgPeriod7 env0).toOption.getD default

/-- C6 counterexample: a configuration whose justification_period option is
7 still yields a grandpa config with justification period 512 — the
assembler fixes the value and never reads the option. -/
theorem justification_period_ignores_config_counterexample :
    robonomics_new_full cfgPeriod7 env0 = Except.ok svcPeriod7 ∧
    cfgPeriod7.justification_period = 7 ∧
    svcPeriod7.grandpaConfig.justification_period = 512 ∧
    svcPeriod7.grandpaConfig.justification_period ≠
      cfgPeriod7.justification_period :=
  ⟨rfl, rfl, rfl, by decide⟩

/-- C6 amended: the justification period of the grandpa config is fixed at
512 by the service assembler (with a FIXME in the source to make it
available through chainspec) for every configuration; it is not taken from
any caller-supplied option. -/
theorem justification_period_fixed_512 (rt : Runtime) (ex : Executor)
    (cfg : Configuration) (env : Env) (s : FullService)
    (h : new_full rt ex cfg env = Except.ok s) :
    s.grandpaConfig.justification_period = 512 := by
  obtain ⟨role, fa, nn, dg, jp⟩ := cfg
  obtain ⟨rf, ri, rs, fav⟩ := env
  cases role <;> cases rf <;> cases ri <;> cases rs <;> cases dg <;>
    simp [new_full, new_full_start, full_import_queue, built_service,
      new_full_from_service, authoring_step, start_authoring,
      authority_discovery_args, ros_integration] at h <;>
    (try subst h) <;> simp

theorem justification_period_fixed_512_witness :
    svcPeriod7.grandpaConfig.justification_period = 512 :=
  justification_period_fixed_512 Runtime.robonomics Executor.Robonomics
    cfgPeriod7 env0 svcPeriod7 rfl

/-- C7: when the ros feature is compiled in and rosrust initialization
fails, the full-service construction still succeeds: the failure is logged
as the quoted warning, no substrate-ros task is spawned, and the service is
returned. -/
theorem ros_init_failure_nonfatal (rt : Runtime) (ex : Executor)
    (cfg : Configuration) (env : Env)
    (hf : env.ros_feature = true) (hi : env.ros_init_ok = false) :
    ∃ s, new_full rt ex cfg env = Except.ok s ∧
      s.warnings =
        ["ROS integration disabled because of initialization failure"] ∧
      spawns s.tasks "substrate-ros" = false := by
  obtain ⟨role, fa, nn, dg, jp⟩ := cfg
  obtain ⟨rf, ri, rs, fav⟩ := env
  simp only [] at hf hi
  subst hf; subst hi
  cases role <;> cases dg <;> exact ⟨_, rfl, rfl, rfl⟩

theorem ros_init_failure_nonfatal_witness :
    ∃ s, new_full Runtime.robonomics Executor.Robonomics cfgAuthority
        envRosInitFail = Except.ok s ∧
      s.warnings =
        ["ROS integration disabled because of initialization failure"] ∧
      spawns s.tasks "substrate-ros" = false :=
  ros_init_failure_nonfatal Runtime.robonomics Executor.Robonomics
    cfgAuthority envRosInitFail rfl rfl

/-- C8: the Robonomics and IPCI service constructions are the one generic
construction instantiated at their runtime/executor pairs: for every
configuration and environment the full (and light) results agree on
everything but the runtime/executor fields, and each network entry point is
definitionally the shared construction applied to its pair. -/
theorem networks_share_generic_assembly :
    (∀ cfg env, (ipci_new_full cfg env).map FullService.assembly =
        (robonomics_new_full cfg env).map FullService.assembly) ∧
    (∀ cfg env, (ipci_new_light cfg env).map LightService.assembly =
        (robonomics_new_light cfg env).map LightService.assembly) ∧
    ipci_new_full = new_full Runtime.ipci Executor.Ipci ∧
    robonomics_new_full = new_full Runtime.robonomics Executor.Robonomics ∧
    ipci_new_light = new_light Runtime.ipci Executor.Ipci ∧
    robonomics_new_light = new_light Runtime.robonomics Executor.Robonomics := by
  refine ⟨?_, ?_, rfl, rfl, rfl, rfl⟩
  · intro cfg env
    obtain ⟨role, fa, nn, dg, jp⟩ := cfg
    obtain ⟨rf, ri, rs, fav⟩ := env
    cases role <;> cases rf <;> cases ri <;> cases rs <;> cases dg <;> rfl
  · intro cfg env
    obtain ⟨rf, ri, rs, fav⟩ := env
    cases fav <;> rfl

/-- C9: whenever the full service is constructed for a role with
role.is_authority() false (Full, Light, Sentry), the grandpa config holds
no keystore, so the finality engine has no signing keys. -/
theorem non_authority_grandpa_keystore_none (rt : Runtime) (ex : Executor)
    (cfg : Configuration) (env : Env) (s : FullService)
    (hna : cfg.role.is_authority = false)
    (h : new_full rt ex cfg env = Except.ok s) :
    s.grandpaConfig.keystore = none := by
  obtain ⟨role, fa, nn, dg, jp⟩ := cfg
  obtain ⟨rf, ri, rs, fav⟩ := env
  cases role <;> simp [Role.is_authority] at hna <;>
    cases rf <;> cases ri <;> cases rs <;> cases dg <;>
    simp [new_full, new_full_start, full_import_queue, built_service,
      new_full_from_service, authoring_step, start_authoring,
      authority_discovery_args, ros_integration] at h <;>
    (try subst h) <;> simp [Role.is_authority]

theorem non_authority_grandpa_keystore_none_witness :
    ((robonomics_new_full cfgSentry env0).toOption.getD
        default).grandpaConfig.keystore = none :=
  non_authority_grandpa_keystore_none Runtime.robonomics Executor.Robonomics
    cfgSentry env0
    ((robonomics_new_full cfgSentry env0).toOption.getD default) rfl rfl

/-- C10: in every successful full-service construction, the babe-proposer
and grandpa-voter tasks are spawned as essential tasks, while the
authority-discovery and substrate-ros tasks are spawned as ordinary
(non-essential) tasks. -/
theorem task_essentialness (rt : Runtime) (ex : Executor)
    (cfg : Configuration) (env : Env) (s : FullService)
    (h : new_full rt ex cfg env = Except.ok s) :
    (∀ t ∈ s.tasks, t.name = "babe-proposer" → t.essential = true) ∧
    (∀ t ∈ s.tasks, t.name = "grandpa-voter" → t.essential = true) ∧
    (∀ t ∈ s.tasks, t.name = "authority-discovery" → t.essential = false) ∧
    (∀ t ∈ s.tasks, t.name = "substrate-ros" → t.essential = false) := by
  obtain ⟨role, fa, nn, dg, jp⟩ := cfg
  obtain ⟨rf, ri, rs, fav⟩ := env
  cases role <;> cases rf <;> cases ri <;> cases rs <;> cases dg <;>
    simp [new_full, new_full_start, full_import_queue, built_service,
      new_full_from_service, authoring_step, start_authoring,
      authority_discovery_args, ros_integration] at h <;>
    (try subst h) <;> simp

theorem task_essentialness_witness :
    (∀ t ∈ ((robonomics_new_full cfgAuthority envRosOk).toOption.getD
        default).tasks, t.name = "babe-proposer" → t.essential = true) ∧
    (∀ t ∈ ((robonomics_new_full cfgAuthority envRosOk).toOption.getD
        default).tasks, t.name = "grandpa-voter" → t.essential = true) ∧
    (∀ t ∈ ((robonomics_new_full cfgAuthority envRosOk).toOption.getD
        default).tasks, t.name = "authority-discovery" →
          t.essential = false) ∧
    (∀ t ∈ ((robonomics_new_full cfgAuthority envRosOk).toOption.getD
        default).tasks, t.name = "substrate-ros" → t.essential = false) :=
  task_essentialness Runtime.robonomics Executor.Robonomics cfgAuthority
    envRosOk
    ((robonomics_new_full cfgAuthority envRosOk).toOption.getD default) rfl
